import Mathlib

/-!
Verification of the Leptos Axum integration layer
(`src/integrations/axum/src/lib.rs`) against its specification.

The embedding below models the pure data flow of the integration layer:

* `HeaderMap` models `http::HeaderMap`: an ordered multimap from
  case-insensitive header names (normalized to lowercase, as `HeaderName`
  does) to values, with `get` (first value), `insert` (replace all values
  of a key), `append` (keep existing values) and `extendFrom`
  (`HeaderMap::extend` over a `drain()`: the first drained value of a key
  replaces the key's existing values, later drained values of the same key
  append).
* `RequestParts` / `ResponseParts` mirror the structs of the same names.
* `generate_request_parts` mirrors the function of the same name; the
  `body::to_bytes(body).await` result is modelled as an `Except` value
  stored in the request, and `unwrap_or_default` as the match on it.
* `handle_server_fns_inner` mirrors the function of the same name.  The
  execution-scope machinery is modelled by two booleans recording whether a
  scope was created (`create_runtime` / `raw_scope_and_disposer`) and
  whether it was disposed (`disposer.dispose(); runtime.dispose()`); the
  server function itself is modelled as a function from the request body
  bytes to its `Result<Payload, _>` together with the contents of the
  `ResponseOptions` sink after the call returns.  Header values are
  modelled as strings, so the infallible direction of `to_str().ok()` is
  taken.
* `render_app_to_stream_with_context` mirrors the stream assembly and
  response construction of the function of the same name: the synthetic
  shell head is a parameter (its text is built from `LeptosOptions` and
  environment variables), the body fragments are the chunks delivered over
  the mpsc channel in emission order, and the three eager `stream.next()`
  pulls with their `.unwrap()` calls are modelled by the match on
  `List.get?`; a `none` result models the panic of `Option::unwrap` on
  `None`.  Every element of the assembled stream is wrapped in
  `Ok(Bytes::from(..))` in the source, so the `io::Result` layer carries
  no information and chunks are modelled as the strings themselves.
* `generate_route_list` mirrors the route normalization of the function of
  the same name, taking the list produced by
  `leptos_router::generate_route_list_inner` as input.
-/

namespace LeptosAxum

/-- ASCII lowercasing of one character, as `http::HeaderName` applies to
header-name bytes (header names are ASCII-restricted). -/
def lowerChar (c : Char) : Char :=
  if 'A' ≤ c ∧ c ≤ 'Z' then Char.ofNat (c.toNat + 32) else c

/-- Header names are case-insensitive; `http::HeaderName` normalizes them
to lowercase at construction, so every name stored in a map is already
lowercase and lookups normalize only the query string. -/
def normalizeName (s : String) : String := String.mk (s.data.map lowerChar)

/-- Ordered multimap of header entries, modelling `http::HeaderMap`. -/
structure HeaderMap where
  entries : List (String × String)
deriving Repr, DecidableEq

def HeaderMap.empty : HeaderMap := ⟨[]⟩

/-- First value stored for a name, as `HeaderMap::get`: stored keys are
already-normalized `HeaderName`s, the query string is normalized for the
comparison. -/
def HeaderMap.get (m : HeaderMap) (k : String) : Option String :=
  (m.entries.find? (fun kv => kv.1 == normalizeName k)).map (fun kv => kv.2)

/-- Insert a value for a name, replacing every existing value of that
name, as `HeaderMap::insert`. -/
def HeaderMap.insert (m : HeaderMap) (k v : String) : HeaderMap :=
  ⟨m.entries.filter (fun kv => !(kv.1 == normalizeName k)) ++
    [(normalizeName k, v)]⟩

/-- Append a value for a name, keeping existing values, as
`HeaderMap::append` (and `http::response::Builder::header`). -/
def HeaderMap.append (m : HeaderMap) (k v : String) : HeaderMap :=
  ⟨m.entries ++ [(normalizeName k, v)]⟩

/-- One step of `HeaderMap::extend` over a `drain()`: the first value seen
for a key replaces that key's existing values, later values of the same
key append.  The second component records the keys already seen. -/
def extendStep (acc : HeaderMap × List String) (kv : String × String) :
    HeaderMap × List String :=
  if acc.2.contains (normalizeName kv.1) then
    (acc.1.append kv.1 kv.2, acc.2)
  else
    (acc.1.insert kv.1 kv.2, normalizeName kv.1 :: acc.2)

/-- `target.extend(src.drain())` of `http::HeaderMap`. -/
def HeaderMap.extendFrom (m src : HeaderMap) : HeaderMap :=
  (src.entries.foldl extendStep (m, [])).1

/-- Mirrors `struct ResponseParts` : optional status override plus a
header multimap.  Status codes are modelled as their numeric value. -/
structure ResponseParts where
  status : Option Nat := none
  headers : HeaderMap := HeaderMap.empty
deriving Repr, DecidableEq

/-- Mirrors `ResponseParts::insert_header`. -/
def ResponseParts.insert_header (p : ResponseParts) (k v : String) : ResponseParts :=
  ⟨p.status, p.headers.insert k v⟩

/-- Mirrors `ResponseParts::append_header`. -/
def ResponseParts.append_header (p : ResponseParts) (k v : String) : ResponseParts :=
  ⟨p.status, p.headers.append k v⟩

/-- Mirrors `ResponseOptions::set_status`. -/
def ResponseParts.set_status (p : ResponseParts) (s : Nat) : ResponseParts :=
  ⟨some s, p.headers⟩

/-- The inbound `http::Request`: immutable parts plus the result of
draining the body (`hyper::body::to_bytes`), which can fail. -/
structure Request where
  version : Nat
  method : String
  uri : String
  headers : HeaderMap
  bodyDrain : Except String (List Nat)

/-- Mirrors `struct RequestParts`. -/
structure RequestParts where
  version : Nat
  method : String
  uri : String
  headers : HeaderMap
  body : List Nat

/-- Mirrors `generate_request_parts`: copies version, method, URI and
headers, and drains the body, swallowing a drain error into the empty
byte buffer (`unwrap_or_default`). -/
def generate_request_parts (req : Request) : RequestParts :=
  ⟨req.version, req.method, req.uri, req.headers,
    match req.bodyDrain with
    | Except.ok b => b
    | Except.error _ => []⟩

/-- Mirrors `leptos::Payload`: the three server-function payload
encodings. -/
inductive Payload
  | Binary (data : List Nat)
  | Url (data : String)
  | Json (data : String)
deriving Repr, DecidableEq

/-- Response body: raw bytes (`Full::from(Bytes)`) or string data
(`Full::from(String)`). -/
inductive RespBody
  | bytes (b : List Nat)
  | str (s : String)
deriving Repr, DecidableEq

/-- The outgoing HTTP response of the server-function dispatcher. -/
structure Resp where
  status : Nat
  headers : HeaderMap
  body : RespBody
deriving Repr, DecidableEq

/-- Result of one dispatch: the response plus whether an execution scope
was created (`create_runtime` / `raw_scope_and_disposer` ran) and whether
it was disposed (`disposer.dispose(); runtime.dispose()` ran). -/
structure DispatchResult where
  resp : Resp
  scopeCreated : Bool
  scopeDisposed : Bool
deriving Repr, DecidableEq

/-- A registered server function, as seen by the dispatcher: from the
request body bytes to the handler result together with the contents of
the `ResponseOptions` sink after the handler returns. -/
abbrev ServerFnHandler := List Nat → Except String Payload × ResponseParts

/-- Mirrors the path normalization at the top of
`handle_server_fns_inner`: `fn_name.strip_prefix('/')`, keeping the name
unchanged when it has no leading slash. -/
def stripSlash (fn_name : String) : String :=
  match fn_name.data with
  | '/' :: rest => String.mk rest
  | _ => fn_name

/-- The 400 body produced for an unregistered server function (the
`format!` string of the `else` branch). -/
def unregisteredMsg (fn_name : String) : String :=
  "Could not find a server function at the route " ++ fn_name ++
    ". \n\nIt's likely that you need to call ServerFn::register() on the server function type, somewhere in your `main` function."

/-- Mirrors `handle_server_fns_inner`.  `registry` models
`server_fn_by_path`; `headers` is the `HeaderMap` argument extracted by
Axum; `req` is the inbound request whose parts feed the handler. -/
def handle_server_fns_inner (registry : String → Option ServerFnHandler)
    (fn_name : String) (headers : HeaderMap) (req : Request) : DispatchResult :=
  let name := stripSlash fn_name
  match registry name with
  | some server_fn =>
    let req_parts := generate_request_parts req
    let out := server_fn req_parts.body
    match out.1 with
    | Except.ok serialized =>
      let res_options := out.2
      let accept_header := headers.get "Accept"
      let base := HeaderMap.empty.extendFrom res_options.headers
      let negotiated :=
        if accept_header == some "application/json"
            || accept_header == some "application/x-www-form-urlencoded"
            || accept_header == some "application/cbor" then
          (200, base)
        else
          let referer := (headers.get "Referer").getD "/"
          (303, base.append "Location" referer)
      let status :=
        match res_options.status with
        | some s => s
        | none => negotiated.1
      let resp :=
        match serialized with
        | Payload.Binary data =>
          Resp.mk status (negotiated.2.append "Content-Type" "application/cbor")
            (RespBody.bytes data)
        | Payload.Url data =>
          Resp.mk status
            (negotiated.2.append "Content-Type" "application/x-www-form-urlencoded")
            (RespBody.str data)
        | Payload.Json data =>
          Resp.mk status (negotiated.2.append "Content-Type" "application/json")
            (RespBody.str data)
      DispatchResult.mk resp true true
    | Except.error e =>
      DispatchResult.mk (Resp.mk 500 HeaderMap.empty (RespBody.str e)) true false
  | none =>
    DispatchResult.mk (Resp.mk 400 HeaderMap.empty (RespBody.str (unregisteredMsg name)))
      false false

/-- The fixed shell tail (`let tail = "</body></html>";`). -/
def shellTail : String := "</body></html>"

/-- The streamed render response: status, headers, and the chunk sequence
handed to the HTTP layer as the `StreamBody`. -/
structure RenderResult where
  status : Nat
  headers : HeaderMap
  chunks : List String
deriving Repr, DecidableEq

/-- Mirrors the stream assembly and response construction of
`render_app_to_stream_with_context`: the assembled stream is the
synthetic head, then the channel-delivered body fragments in emission
order, then the synthetic tail; the first three chunks are eagerly
pulled and unconditionally unwrapped before the response is built, then
re-spliced in front of the rest of the stream.  `none` models the panic
of `Option::unwrap` when a pulled chunk is `None`.  `res_options` is the
contents of the `ResponseOptions` sink after rendering completed
(`res_options3`). -/
def render_app_to_stream_with_context (head : String) (fragments : List String)
    (res_options : ResponseParts) : Option RenderResult :=
  let stream := head :: (fragments ++ [shellTail])
  match stream.get? 0, stream.get? 1, stream.get? 2 with
  | some first_chunk, some second_chunk, some third_chunk =>
    let complete_stream := [first_chunk, second_chunk, third_chunk] ++ stream.drop 3
    some (RenderResult.mk
      (match res_options.status with
       | some s => s
       | none => 200)
      (HeaderMap.empty.extendFrom res_options.headers)
      complete_stream)
  | _, _, _ => none

/-- Mirrors `generate_route_list`, taking the list collected by
`leptos_router::generate_route_list_inner` as input: empty paths are
normalized to "/", and an empty route list becomes `["/"]`. -/
def generate_route_list (routes : List String) : List String :=
  let routes := routes.map (fun s => if s.isEmpty then "/" else s)
  if routes.isEmpty then ["/"] else routes

/-- The `Content-Type` value the dispatcher attaches for each payload
variant (the `match serialized` at the end of the success branch). -/
def payloadContentType : Payload → String
  | Payload.Binary _ => "application/cbor"
  | Payload.Url _ => "application/x-www-form-urlencoded"
  | Payload.Json _ => "application/json"

/-- Whether a header value is one of the three server-function payload
content types. -/
def amongThree (v : String) : Bool :=
  v == "application/cbor" || v == "application/x-www-form-urlencoded" ||
    v == "application/json"

/-- Whether an entry is a `Content-Type` header whose value is one of the
three payload content types. -/
def ctPred (kv : String × String) : Bool :=
  kv.1 == "content-type" && amongThree kv.2

/-- A registry with exactly one registered server function. -/
def singleRegistry (name : String) (f : ServerFnHandler) :
    String → Option ServerFnHandler :=
  fun n => if n = name then some f else none

/-- A concrete inbound request used to instantiate theorems. -/
def sampleReq : Request :=
  ⟨1, "POST", "/api/fn", HeaderMap.empty, Except.ok [1, 2, 3]⟩

/-- A handler that fails with a fixed error message. -/
def errHandler : ServerFnHandler :=
  fun _ => (Except.error "server fn failed", ⟨none, HeaderMap.empty⟩)

/-- A handler that succeeds with a JSON payload and sets status 201
through the response sink. -/
def okHandler201 : ServerFnHandler :=
  fun _ => (Except.ok (Payload.Json "null"), ⟨some 201, HeaderMap.empty⟩)

/-- A handler that succeeds with a JSON payload and leaves the sink
untouched. -/
def okHandlerPlain : ServerFnHandler :=
  fun _ => (Except.ok (Payload.Json "null"), ⟨none, HeaderMap.empty⟩)

/-- A handler that succeeds with a JSON payload after inserting a
`Content-Type: application/cbor` header through the response sink. -/
def ctHandler : ServerFnHandler :=
  fun _ =>
    (Except.ok (Payload.Json "null"),
      ⟨none, ⟨[("content-type", "application/cbor")]⟩⟩)

/-- A handler that succeeds with a JSON payload after adding a custom,
non-`Content-Type` header through the response sink. -/
def customHeaderHandler : ServerFnHandler :=
  fun _ =>
    (Except.ok (Payload.Json "null"), ⟨none, ⟨[("x-custom", "1")]⟩⟩)

/-!  Theorems.  Shared helper lemmas come first, then one theorem (plus
witness or counterexample) per specification claim. -/

/-- Every entry of a map built by `extend`ing from `src` either was in
the starting accumulator or is a normalized-key copy of an entry of
`src`. -/
theorem mem_foldl_extendStep (l : List (String × String))
    (acc : HeaderMap × List String) (e : String × String)
    (he : e ∈ (l.foldl extendStep acc).1.entries) :
    e ∈ acc.1.entries ∨ ∃ kv ∈ l, e = (normalizeName kv.1, kv.2) := by
  induction l generalizing acc with
  | nil => exact Or.inl he
  | cons kv rest ih =>
    have h := ih (extendStep acc kv) he
    rcases h with h | ⟨kv', hkv', hkv'e⟩
    · by_cases hc : acc.2.contains (normalizeName kv.1)
      · simp only [extendStep, hc, if_pos, HeaderMap.append, List.mem_append,
          List.mem_singleton] at h
        rcases h with h | h
        · exact Or.inl h
        · exact Or.inr ⟨kv, List.mem_cons_self kv rest, h⟩
      · simp only [extendStep, hc, if_neg, Bool.false_eq_true, not_false_iff,
          HeaderMap.insert, List.mem_append, List.mem_singleton,
          List.mem_filter] at h
        rcases h with h | h
        · exact Or.inl h.1
        · exact Or.inr ⟨kv, List.mem_cons_self kv rest, h⟩
    · exact Or.inr ⟨kv', List.mem_cons_of_mem kv hkv', hkv'e⟩

/-- Entries of the map obtained by extending the empty map from `src`
are normalized-key copies of entries of `src`. -/
theorem mem_extendFrom_empty (src : HeaderMap) (e : String × String)
    (he : e ∈ (HeaderMap.empty.extendFrom src).entries) :
    ∃ kv ∈ src.entries, e = (normalizeName kv.1, kv.2) := by
  have h := mem_foldl_extendStep src.entries (HeaderMap.empty, []) e he
  rcases h with h | h
  · simp [HeaderMap.empty] at h
  · exact h

/-- C8: `generate_request_parts` preserves method, URI, headers and
version, returns the drained body bytes on a successful drain, and
swallows a drain failure into the empty byte buffer instead of
surfacing an error. -/
theorem generate_request_parts_spec (req : Request) :
    (generate_request_parts req).method = req.method ∧
    (generate_request_parts req).uri = req.uri ∧
    (generate_request_parts req).headers = req.headers ∧
    (generate_request_parts req).version = req.version ∧
    (∀ b, req.bodyDrain = Except.ok b → (generate_request_parts req).body = b) ∧
    (∀ e, req.bodyDrain = Except.error e → (generate_request_parts req).body = []) := by
  refine ⟨rfl, rfl, rfl, rfl, ?_, ?_⟩ <;> intro x h <;>
    simp [generate_request_parts, h]

/-- Witness for C8 at a concrete failing drain and a concrete
successful drain. -/
theorem generate_request_parts_spec_witness :
    (generate_request_parts
        ⟨1, "POST", "/api/fn", HeaderMap.empty, Except.error "io error"⟩).body = [] ∧
    (generate_request_parts
        ⟨1, "POST", "/api/fn", HeaderMap.empty, Except.ok [1, 2]⟩).body = [1, 2] :=
  ⟨(generate_request_parts_spec
      ⟨1, "POST", "/api/fn", HeaderMap.empty, Except.error "io error"⟩).2.2.2.2.2
      "io error" rfl,
   (generate_request_parts_spec
      ⟨1, "POST", "/api/fn", HeaderMap.empty, Except.ok [1, 2]⟩).2.2.2.2.1
      [1, 2] rfl⟩

/-- C9: route enumeration never returns an empty list, returns exactly
`["/"]` for zero declared routes, and otherwise replaces every empty
collected path by "/". -/
theorem generate_route_list_spec (routes : List String) :
    generate_route_list routes ≠ [] ∧
    (routes = [] → generate_route_list routes = ["/"]) ∧
    (routes ≠ [] →
      generate_route_list routes =
        routes.map (fun s => if s.isEmpty then "/" else s)) := by
  refine ⟨?_, ?_, ?_⟩
  · cases routes <;> simp [generate_route_list]
  · intro h; subst h; simp [generate_route_list]
  · intro h
    cases routes with
    | nil => exact absurd rfl h
    | cons a l => simp [generate_route_list]

/-- Witness for C9 at the empty route list and at a list containing an
empty path. -/
theorem generate_route_list_spec_witness :
    generate_route_list [] = ["/"] ∧
    generate_route_list ["", "/foo"] = ["/", "/foo"] := by
  constructor
  · exact (generate_route_list_spec []).2.1 rfl
  · rw [(generate_route_list_spec ["", "/foo"]).2.2 (by decide)]
    decide

/-- C10: the three eager `unwrap`s on the assembled stream succeed, and
a response is produced, exactly when the view renderer emitted at least
one body fragment; with zero body fragments the third pull yields `None`
and the handler panics instead of producing a response. -/
theorem render_unwrap_iff_nonempty (head : String) (fragments : List String)
    (res_options : ResponseParts) :
    (render_app_to_stream_with_context head fragments res_options).isSome ↔
      fragments ≠ [] := by
  cases fragments with
  | nil => simp [render_app_to_stream_with_context]
  | cons a l => cases l <;> simp [render_app_to_stream_with_context]

/-- C1: whenever the streamed render produces a response, the chunk
sequence handed to the HTTP layer is exactly the synthetic shell head,
then the body fragments in emission order, then the synthetic shell
tail — the eager pulling and re-splicing never reorders or drops a
chunk. -/
theorem render_stream_order (head : String) (fragments : List String)
    (res_options : ResponseParts) (res : RenderResult)
    (h : render_app_to_stream_with_context head fragments res_options = some res) :
    res.chunks = head :: (fragments ++ [shellTail]) := by
  cases fragments with
  | nil => simp [render_app_to_stream_with_context] at h
  | cons a l =>
    cases l with
    | nil =>
      simp only [render_app_to_stream_with_context, List.get?, Option.some.injEq]
        at h
      simp [← h]
    | cons b rest =>
      simp only [render_app_to_stream_with_context, List.get?, Option.some.injEq]
        at h
      simp [← h]

/-- Witness for C1: a concrete render with two body fragments. -/
theorem render_stream_order_witness :
    (RenderResult.mk 200 HeaderMap.empty
        ["<html>", "f1", "f2", shellTail]).chunks =
      "<html>" :: (["f1", "f2"] ++ [shellTail]) :=
  render_stream_order "<html>" ["f1", "f2"] ⟨none, HeaderMap.empty⟩
    (RenderResult.mk 200 HeaderMap.empty ["<html>", "f1", "f2", shellTail]) rfl

/-- C3: at a concrete dispatch whose handler fails, the response is 500
with the failure's textual description as body — but, contrary to the
specification, the execution scope is NOT disposed on this path: the
`disposer.dispose(); runtime.dispose()` calls appear only in the `Ok`
branch of the source, so `scopeDisposed` is `false` here. -/
theorem handler_error_500_no_dispose :
    handle_server_fns_inner (singleRegistry "err_fn" errHandler) "/err_fn"
        HeaderMap.empty sampleReq =
      DispatchResult.mk
        (Resp.mk 500 HeaderMap.empty (RespBody.str "server fn failed")) true false := by
  rfl

/-- C5: a request naming an unregistered server function gets status
exactly 400, a body containing the normalized function name, and no
execution scope is created. -/
theorem unregistered_fn_400 (registry : String → Option ServerFnHandler)
    (fn_name : String) (headers : HeaderMap) (req : Request)
    (h : registry (stripSlash fn_name) = none) :
    (handle_server_fns_inner registry fn_name headers req).resp.status = 400 ∧
    (∃ pre post,
      (handle_server_fns_inner registry fn_name headers req).resp.body =
        RespBody.str (pre ++ stripSlash fn_name ++ post)) ∧
    (handle_server_fns_inner registry fn_name headers req).scopeCreated = false := by
  refine ⟨?_,
    ⟨"Could not find a server function at the route ",
      ". \n\nIt's likely that you need to call ServerFn::register() on the server function type, somewhere in your `main` function.", ?_⟩, ?_⟩ <;>
    simp [handle_server_fns_inner, h, unregisteredMsg]

/-- Witness for C5 at a registry with no registered functions. -/
theorem unregistered_fn_400_witness :
    (handle_server_fns_inner (fun _ => none) "/missing_fn" HeaderMap.empty
        sampleReq).resp.status = 400 ∧
    (handle_server_fns_inner (fun _ => none) "/missing_fn" HeaderMap.empty
        sampleReq).scopeCreated = false :=
  ⟨(unregistered_fn_400 (fun _ => none) "/missing_fn" HeaderMap.empty sampleReq
      rfl).1,
   (unregistered_fn_400 (fun _ => none) "/missing_fn" HeaderMap.empty sampleReq
      rfl).2.2⟩

/-- C2: a status recorded in the response sink always overrides the
negotiated or default status; without one, the dispatcher uses its
negotiated status (200 for a matched `Accept`, 303 otherwise) and the
render pipeline uses the default 200. -/
theorem status_override_precedence :
    (∀ (registry : String → Option ServerFnHandler) (fn_name : String)
        (headers : HeaderMap) (req : Request) (f : ServerFnHandler)
        (payload : Payload) (parts : ResponseParts),
      registry (stripSlash fn_name) = some f →
      f (generate_request_parts req).body = (Except.ok payload, parts) →
      (handle_server_fns_inner registry fn_name headers req).resp.status =
        parts.status.getD
          (if headers.get "Accept" == some "application/json"
              || headers.get "Accept" == some "application/x-www-form-urlencoded"
              || headers.get "Accept" == some "application/cbor"
            then 200 else 303)) ∧
    (∀ (head : String) (fragments : List String) (parts : ResponseParts)
        (res : RenderResult),
      render_app_to_stream_with_context head fragments parts = some res →
      res.status = parts.status.getD 200) := by
  constructor
  · intro registry fn_name headers req f payload parts h1 h2
    cases payload <;> cases hst : parts.status <;>
      simp [handle_server_fns_inner, h1, h2, hst] <;> split <;> rfl
  · intro head fragments parts res h
    cases fragments with
    | nil => simp [render_app_to_stream_with_context] at h
    | cons a l =>
      cases l <;>
        (simp only [render_app_to_stream_with_context, List.get?,
          Option.some.injEq] at h
         cases hst : parts.status <;> simp [← h, hst])

/-- Witness for C2: a sink-set 201 wins over the negotiated 200 in the
dispatcher, and over the default 200 in the render pipeline. -/
theorem status_override_precedence_witness :
    (handle_server_fns_inner (singleRegistry "ok_fn" okHandler201) "/ok_fn"
        (HeaderMap.empty.insert "Accept" "application/json")
        sampleReq).resp.status = 201 ∧
    (RenderResult.mk 201 HeaderMap.empty ["h", "x", shellTail]).status = 201 :=
  ⟨status_override_precedence.1 (singleRegistry "ok_fn" okHandler201) "/ok_fn"
      (HeaderMap.empty.insert "Accept" "application/json") sampleReq okHandler201
      (Payload.Json "null") ⟨some 201, HeaderMap.empty⟩ rfl rfl,
   status_override_precedence.2 "h" ["x"] ⟨some 201, HeaderMap.empty⟩
      (RenderResult.mk 201 HeaderMap.empty ["h", "x", shellTail]) rfl⟩

/-- C4: a successful dispatch whose request carries
`Accept: application/json` never takes the 303-redirect branch — its
status is 200 unless the sink set an override. -/
theorem accept_json_success_status (registry : String → Option ServerFnHandler)
    (fn_name : String) (headers : HeaderMap) (req : Request) (f : ServerFnHandler)
    (payload : Payload) (parts : ResponseParts)
    (h1 : registry (stripSlash fn_name) = some f)
    (h2 : f (generate_request_parts req).body = (Except.ok payload, parts))
    (hacc : headers.get "Accept" = some "application/json") :
    (handle_server_fns_inner registry fn_name headers req).resp.status =
      parts.status.getD 200 := by
  cases payload <;> cases hst : parts.status <;>
    simp [handle_server_fns_inner, h1, h2, hacc, hst]

/-- Witness for C4: a plain JSON-accepting dispatch comes back 200. -/
theorem accept_json_success_status_witness :
    (handle_server_fns_inner (singleRegistry "ok_fn" okHandlerPlain) "/ok_fn"
        (HeaderMap.empty.insert "Accept" "application/json")
        sampleReq).resp.status = 200 :=
  accept_json_success_status (singleRegistry "ok_fn" okHandlerPlain) "/ok_fn"
    (HeaderMap.empty.insert "Accept" "application/json") sampleReq okHandlerPlain
    (Payload.Json "null") ⟨none, HeaderMap.empty⟩ rfl rfl rfl

/-- The merged sink headers contain no `location`-keyed entry when the
sink itself had none. -/
theorem find?_location_none (parts : ResponseParts)
    (hclean : ∀ kv ∈ parts.headers.entries, normalizeName kv.1 ≠ "location") :
    (HeaderMap.empty.extendFrom parts.headers).entries.find?
      (fun kv => kv.1 == "location") = none := by
  apply List.find?_eq_none.mpr
  intro kv hkv
  rcases mem_extendFrom_empty _ kv hkv with ⟨kv', hkv', rfl⟩
  have h := hclean kv' hkv'
  simpa using h

/-- C6: a successful dispatch whose `Accept` header is absent or matches
none of the three payload content types answers, absent a sink status
override, with 303 and a `Location` header equal to the `Referer` header
value, or "/" when `Referer` is absent. -/
theorem form_redirect_303_location (registry : String → Option ServerFnHandler)
    (fn_name : String) (headers : HeaderMap) (req : Request) (f : ServerFnHandler)
    (payload : Payload) (parts : ResponseParts)
    (h1 : registry (stripSlash fn_name) = some f)
    (h2 : f (generate_request_parts req).body = (Except.ok payload, parts))
    (hacc : (headers.get "Accept" == some "application/json"
        || headers.get "Accept" == some "application/x-www-form-urlencoded"
        || headers.get "Accept" == some "application/cbor") = false)
    (hst : parts.status = none) :
    (handle_server_fns_inner registry fn_name headers req).resp.status = 303 ∧
    ("location", (headers.get "Referer").getD "/") ∈
      (handle_server_fns_inner registry fn_name headers req).resp.headers.entries ∧
    ((∀ kv ∈ parts.headers.entries, normalizeName kv.1 ≠ "location") →
      (handle_server_fns_inner registry fn_name headers req).resp.headers.get
        "Location" = some ((headers.get "Referer").getD "/")) := by
  have hacc' : ¬((headers.get "Accept" = some "application/json" ∨
        headers.get "Accept" = some "application/x-www-form-urlencoded") ∨
      headers.get "Accept" = some "application/cbor") := by
    simp only [Bool.or_eq_false_iff, beq_eq_false_iff_ne, ne_eq] at hacc
    rintro ((h | h) | h)
    · exact hacc.1.1 h
    · exact hacc.1.2 h
    · exact hacc.2 h
  have hL : normalizeName "Location" = "location" := by decide
  refine ⟨?_, ?_, ?_⟩
  · cases payload <;>
      simp [handle_server_fns_inner, h1, h2, hst, hacc']
  · cases payload <;>
      simp [handle_server_fns_inner, h1, h2, hst, hacc', HeaderMap.append, hL]
  · intro hclean
    have hfind := find?_location_none parts hclean
    cases payload <;>
      (simp only [handle_server_fns_inner, h1, h2, hst, hacc,
        Bool.false_eq_true, if_false, HeaderMap.append, hL]
       simp [HeaderMap.get, List.find?_append, hfind, hL])

/-- Witness for C6: a form-style dispatch with no `Accept` header and
`Referer: /foo` redirects 303 to `/foo`. -/
theorem form_redirect_303_location_witness :
    (handle_server_fns_inner (singleRegistry "ok_fn" okHandlerPlain) "/ok_fn"
        (HeaderMap.empty.insert "Referer" "/foo") sampleReq).resp.status = 303 ∧
    (handle_server_fns_inner (singleRegistry "ok_fn" okHandlerPlain) "/ok_fn"
        (HeaderMap.empty.insert "Referer" "/foo") sampleReq).resp.headers.get
      "Location" = some "/foo" := by
  have h := form_redirect_303_location (singleRegistry "ok_fn" okHandlerPlain)
    "/ok_fn" (HeaderMap.empty.insert "Referer" "/foo") sampleReq okHandlerPlain
    (Payload.Json "null") ⟨none, HeaderMap.empty⟩ rfl rfl (by decide) rfl
  exact ⟨h.1, by simpa using h.2.2 (by simp [HeaderMap.empty])⟩

/-- The merged sink headers contain no `Content-Type` entry carrying one
of the three payload content types when the sink itself had none. -/
theorem filter_ctPred_extendFrom_nil (parts : ResponseParts)
    (hclean : ∀ kv ∈ parts.headers.entries,
      ¬(normalizeName kv.1 = "content-type" ∧ amongThree kv.2 = true)) :
    (HeaderMap.empty.extendFrom parts.headers).entries.filter ctPred = [] := by
  apply List.filter_eq_nil_iff.mpr
  intro kv hkv
  rcases mem_extendFrom_empty _ kv hkv with ⟨kv', hkv', rfl⟩
  have h := hclean kv' hkv'
  simp only [ctPred, Bool.and_eq_true, beq_iff_eq]
  exact fun hc => h ⟨hc.1, hc.2⟩

/-- C7 counterexample: a successful dispatch whose handler set
`Content-Type: application/cbor` through the response sink ends up with
TWO `Content-Type` headers among the three payload content types — the
payload's `Content-Type` is appended after the sink headers are merged,
it does not replace them. -/
theorem content_type_duplicated_counterexample :
    ((handle_server_fns_inner (singleRegistry "ct_fn" ctHandler) "/ct_fn"
          (HeaderMap.empty.insert "Accept" "application/json")
          sampleReq).resp.headers.entries.filter ctPred).length = 2 ∧
    (handle_server_fns_inner (singleRegistry "ct_fn" ctHandler) "/ct_fn"
        (HeaderMap.empty.insert "Accept" "application/json")
        sampleReq).scopeDisposed = true := by
  refine ⟨?_, ?_⟩ <;> rfl

/-- C7 amended: provided the handler's sink headers contain no
`Content-Type` entry among the three payload content types, the response
carries exactly one such `Content-Type` header, and it matches the
payload variant the handler produced. -/
theorem content_type_unique_when_sink_clean
    (registry : String → Option ServerFnHandler) (fn_name : String)
    (headers : HeaderMap) (req : Request) (f : ServerFnHandler)
    (payload : Payload) (parts : ResponseParts)
    (h1 : registry (stripSlash fn_name) = some f)
    (h2 : f (generate_request_parts req).body = (Except.ok payload, parts))
    (hclean : ∀ kv ∈ parts.headers.entries,
      ¬(normalizeName kv.1 = "content-type" ∧ amongThree kv.2 = true)) :
    (handle_server_fns_inner registry fn_name headers req).resp.headers.entries.filter
      ctPred = [("content-type", payloadContentType payload)] := by
  have hbase := filter_ctPred_extendFrom_nil parts hclean
  have hCT : normalizeName "Content-Type" = "content-type" := by decide
  have hL : normalizeName "Location" = "location" := by decide
  cases payload <;>
    (simp only [handle_server_fns_inner, h1, h2]
     by_cases hacc : (headers.get "Accept" = some "application/json" ∨
         headers.get "Accept" = some "application/x-www-form-urlencoded") ∨
         headers.get "Accept" = some "application/cbor" <;>
       simp [hacc, HeaderMap.append, hCT, hL, List.filter_append, hbase,
         payloadContentType, ctPred, amongThree])

/-- Witness for C7 amended: a handler adding only a custom header yields
exactly one `Content-Type`, matching its JSON payload. -/
theorem content_type_unique_when_sink_clean_witness :
    (handle_server_fns_inner (singleRegistry "ok_fn" customHeaderHandler) "/ok_fn"
        HeaderMap.empty sampleReq).resp.headers.entries.filter ctPred =
      [("content-type", "application/json")] :=
  content_type_unique_when_sink_clean (singleRegistry "ok_fn" customHeaderHandler)
    "/ok_fn" HeaderMap.empty sampleReq customHeaderHandler (Payload.Json "null")
    ⟨none, ⟨[("x-custom", "1")]⟩⟩ rfl rfl (by decide)

end LeptosAxum
